import Mathlib

/-!
Verification of the saju-api request handler (`api/manse_calendar.py`).

The Python module computes the traditional Korean four-pillar (saju)
designation.  This file is a shallow embedding of that module:

* `STEMS`, `BRANCHES`, `HOUR_START`, `TIME_MAP` mirror the module-level
  lookup tables (Python dicts become association lists, looked up with
  `List.lookup`, which compares keys in order exactly like the
  membership tests the code performs).
* `parseHHMM` models `re.match(r'^(\d{1,2}):(\d{2})$', ...)` together
  with the `int(...)` conversions of the two groups.  Note that in
  Python `$` also matches just before a single trailing newline, so
  the model accepts an optional final `'\n'`.  (Python `\d` also
  matches non-ASCII decimal digits; that corner is not modelled, the
  embedding uses ASCII digits.)
* `scan_blocks` models the `for idx, (sH,sM,eH,eM) in enumerate(blocks)`
  loop of `hhmm_to_index`, and `hhmm_to_index` the whole function.
* `extract_ymd_pairs` models the three `re.search` pillar extractions
  and the day-stem extraction.  Python `\s` is modelled by the six
  ASCII whitespace characters (`pyIsSpace`); non-ASCII whitespace is
  not modelled.
* `compute_hour_pillar` models the hour-pillar derivation.  Python list
  indexing is modelled with `getElem?`; for the out-of-range indices
  the Python code would raise instead, but every call site proved here
  stays in range.
-/

/-- Heavenly stems, `STEMS` in the source. -/
def STEMS : List Char := ['갑', '을', '병', '정', '무', '기', '경', '신', '임', '계']

/-- Earthly branches, `BRANCHES` in the source. -/
def BRANCHES : List Char := ['자', '축', '인', '묘', '진', '사', '오', '미', '신', '유', '술', '해']

/-- Day-stem to hour-start-offset table, `HOUR_START` in the source. -/
def HOUR_START : List (Char × Nat) :=
  [('갑', 0), ('기', 0), ('을', 2), ('경', 2), ('병', 4), ('신', 4), ('정', 6), ('임', 6),
   ('무', 8), ('계', 8)]

/-- Discrete time-code to branch-index table, `TIME_MAP` in the source. -/
def TIME_MAP : List (String × Nat) :=
  [("00", 0), ("02", 1), ("04", 2), ("06", 3), ("08", 4), ("10", 5), ("12", 6), ("14", 7),
   ("16", 8), ("18", 9), ("20", 10), ("22", 11), ("24", 0)]

/-- Model of `re.match(r'^(\d{1,2}):(\d{2})$', hhmm)` followed by
`int(m.group(1)), int(m.group(2))`.  Python `$` also matches before one
trailing newline, hence the two extra cases. -/
def parseHHMM (s : String) : Option (Nat × Nat) :=
  match s.data with
  | [h1, ':', m1, m2] =>
    if h1.isDigit && m1.isDigit && m2.isDigit then
      some (h1.toNat - 48, (m1.toNat - 48) * 10 + (m2.toNat - 48))
    else none
  | [h1, h2, ':', m1, m2] =>
    if h1.isDigit && h2.isDigit && m1.isDigit && m2.isDigit then
      some ((h1.toNat - 48) * 10 + (h2.toNat - 48), (m1.toNat - 48) * 10 + (m2.toNat - 48))
    else none
  | [h1, ':', m1, m2, '\n'] =>
    if h1.isDigit && m1.isDigit && m2.isDigit then
      some (h1.toNat - 48, (m1.toNat - 48) * 10 + (m2.toNat - 48))
    else none
  | [h1, h2, ':', m1, m2, '\n'] =>
    if h1.isDigit && h2.isDigit && m1.isDigit && m2.isDigit then
      some ((h1.toNat - 48) * 10 + (h2.toNat - 48), (m1.toNat - 48) * 10 + (m2.toNat - 48))
    else none
  | _ => none

/-- The `blocks` list of `hhmm_to_index`. -/
def blocks : List (Nat × Nat × Nat × Nat) :=
  [(23, 30, 1, 29), (1, 30, 3, 29), (3, 30, 5, 29), (5, 30, 7, 29),
   (7, 30, 9, 29), (9, 30, 11, 29), (11, 30, 13, 29), (13, 30, 15, 29),
   (15, 30, 17, 29), (17, 30, 19, 29), (19, 30, 21, 29), (21, 30, 23, 29)]

/-- The `for idx, (sH,sM,eH,eM) in enumerate(blocks)` loop of
`hhmm_to_index`: each block is normalised modulo `24*60` and matched
either as an ordinary interval or, when it wraps midnight, as the union
`cur >= s or cur <= e`. -/
def scan_blocks (cur : Nat) : Nat → List (Nat × Nat × Nat × Nat) → Option Nat
  | _, [] => none
  | idx, (sH, sM, eH, eM) :: rest =>
    if (sH * 60 + sM) % 1440 ≤ (eH * 60 + eM) % 1440 then
      if (sH * 60 + sM) % 1440 ≤ cur ∧ cur ≤ (eH * 60 + eM) % 1440 then some idx
      else scan_blocks cur (idx + 1) rest
    else
      if (sH * 60 + sM) % 1440 ≤ cur ∨ cur ≤ (eH * 60 + eM) % 1440 then some idx
      else scan_blocks cur (idx + 1) rest

/-- `hhmm_to_index` from the source: regex parse, the 23:30–23:59 fast
path, the block scan, then the residual 00:00–01:29 fallback. -/
def hhmm_to_index (s : String) : Option Nat :=
  match parseHHMM s with
  | none => none
  | some (hh, mm) =>
    if hh = 23 ∧ 30 ≤ mm then some 0
    else
      match scan_blocks (hh * 60 + mm) 0 blocks with
      | some idx => some idx
      | none => if hh ≤ 1 ∧ hh * 60 + mm ≤ 89 then some 0 else none

/-- Python `\s` (ASCII part): the whitespace class used by the
day-stem regex `([...])[^\s]*일`. -/
def pyIsSpace (c : Char) : Bool :=
  c = ' ' || c = '\t' || c = '\n' || c = '\r' || c = '\x0b' || c = '\x0c'

/-- Leftmost occurrence of `<stem><branch><mark>`, i.e.
`re.search(r'([stems][branches])<mark>', s)` returning group 1. -/
def findPair (mark : Char) : List Char → Option String
  | a :: b :: c :: rest =>
    if STEMS.contains a ∧ BRANCHES.contains b ∧ c = mark then some (String.mk [a, b])
    else findPair mark (b :: c :: rest)
  | _ => none

/-- Whether `[^\s]*일` matches at the start of the list: a run of
non-whitespace characters reaching a `'일'`. -/
def hasIlRun : List Char → Bool
  | [] => false
  | c :: rest => if c = '일' then true else if pyIsSpace c then false else hasIlRun rest

/-- Leftmost match of `re.search(r'([stems])[^\s]*일', s)`, group 1:
the first stem character from which an unbroken non-whitespace run
reaches `'일'`. -/
def findDayStem : List Char → Option Char
  | [] => none
  | c :: rest => if STEMS.contains c ∧ hasIlRun rest then some c else findDayStem rest

/-- `extract_ymd_pairs` from the source: year/month/day stem-branch
pairs and the lone day stem, each extraction independent. -/
def extract_ymd_pairs (ganji_kr : String) :
    Option String × Option String × Option String × Option Char :=
  (findPair '년' ganji_kr.data, findPair '월' ganji_kr.data, findPair '일' ganji_kr.data,
   findDayStem ganji_kr.data)

/-- `compute_hour_pillar` from the source: `None` when the day stem is
not a `HOUR_START` key, otherwise `STEMS[(off + hour_idx) % 10]`
concatenated with `BRANCHES[hour_idx]`. -/
def compute_hour_pillar (day_stem_kr : Char) (hour_idx : Nat) : Option String :=
  match List.lookup day_stem_kr HOUR_START with
  | none => none
  | some off =>
    match STEMS[(off + hour_idx) % 10]?, BRANCHES[hour_idx]? with
    | some stem, some branch => some (String.mk [stem, branch])
    | _, _ => none

/-!
Handler layer.  `handler.do_GET` is modelled as a pure function from
the already-decoded query parameters (`Request`: a missing parameter is
its source-level default, `''` / `'SOLAR'` / `'false'`) and a model of
the external `KoreanLunarCalendar` library (`CalLib`) to the HTTP
response the method writes (`Response`).  The library is an external
collaborator, not part of this repository, so it is a parameter: which
of its version-dependent methods exist, and what pillar text
`getGanji` returns for the date that was set (`CalState`).
-/

/-- The date state of a `KoreanLunarCalendar` object after one of the
setter wrappers ran. -/
inductive CalState where
  | solar (y m d : Nat)
  | lunar (y m d : Nat) (leap : Bool)
deriving DecidableEq

/-- Model of the external library: which methods `hasattr` finds, and
the combined pillar text `getGanji` returns (absent in some versions). -/
structure CalLib where
  hasSetSolar : Bool
  hasSetSolarDate : Bool
  hasSetLunar : Bool
  hasSetLunarDate : Bool
  getGanji : Option (CalState → String)

/-- `set_solar` from the source: try `setSolar`, then `setSolarDate`,
else raise `AttributeError` (modelled as `Except.error` carrying
`str(e)`). -/
def set_solar (lib : CalLib) (y m d : Nat) : Except String CalState :=
  if lib.hasSetSolar then .ok (.solar y m d)
  else if lib.hasSetSolarDate then .ok (.solar y m d)
  else .error "KoreanLunarCalendar: setSolar/setSolarDate not found"

/-- `set_lunar` from the source: try `setLunar`, then `setLunarDate`,
else raise `AttributeError`. -/
def set_lunar (lib : CalLib) (y m d : Nat) (is_leap : Bool) : Except String CalState :=
  if lib.hasSetLunar then .ok (.lunar y m d is_leap)
  else if lib.hasSetLunarDate then .ok (.lunar y m d is_leap)
  else .error "KoreanLunarCalendar: setLunar/setLunarDate not found"

/-- `get_ganji` from the source: use `getGanji` when present, otherwise
return the empty string (old-version fallback, it does not raise). -/
def get_ganji (lib : CalLib) (st : CalState) : String :=
  match lib.getGanji with
  | some f => f st
  | none => ""

/-- The decoded query parameters of one GET request, after the
defaulting performed at the top of `do_GET` (an absent parameter is
already replaced by `''`, resp. `'SOLAR'` for `birthdayType` and
`'false'` for `isLeap`). -/
structure Request where
  birthday : String
  timeCode : String
  time : String
  birthdayType : String
  gender : String
  isLeap : String
deriving DecidableEq

/-- The JSON value passed to `self._json`. -/
inductive JObj where
  | errorObj (error message : String)
  | resultObj (result : String)

/-- `json.dumps(obj, ensure_ascii=False)` for the two object shapes the
handler builds, with the default `', '` / `': '` separators.  The
strings serialised here never contain characters `json.dumps` would
escape, so escaping is the identity and is not modelled. -/
def dumps : JObj → String
  | .errorObj e m => "\x7b\"error\": \"" ++ e ++ "\", \"message\": \"" ++ m ++ "\"\x7d"
  | .resultObj r => "\x7b\"result\": \"" ++ r ++ "\"\x7d"

/-- The observable HTTP response `_json` writes: status code, the
`Content-Type` header, the `Content-Length` header (UTF-8 byte count of
the body), and the body itself. -/
structure Response where
  status : Nat
  contentType : String
  contentLength : Nat
  body : String
deriving DecidableEq

/-- `self._json(code, obj)` from the source. -/
def _json (code : Nat) (obj : JObj) : Response :=
  { status := code
    contentType := "application/json; charset=utf-8"
    contentLength := (dumps obj).utf8ByteSize
    body := dumps obj }

/-- Model of `re.match(r'^\d{8}$', birthday)`: since Python `$` also
matches just before one final newline, the regex accepts exactly eight
ASCII digits optionally followed by a single `'\n'`. -/
def matchBirthday (s : String) : Bool :=
  (decide (s.data.length = 8) ||
    (decide (s.data.length = 9) && decide (s.data.getLast? = some '\n'))) &&
  (s.data.take 8).all Char.isDigit

/-- Python `str.upper()` (ASCII part, which is all the handler
compares against). -/
def pyUpper (s : String) : String := String.mk (s.data.map Char.toUpper)

/-- Python `str.lower()` (ASCII part). -/
def pyLower (s : String) : String := String.mk (s.data.map Char.toLower)

/-- `int(...)` on a slice of ASCII digits. -/
def digitsToNat (cs : List Char) : Nat :=
  cs.foldl (fun n c => 10 * n + (c.toNat - 48)) 0

/-- Construction of the calendar state:
`int(birthday[:4]), int(birthday[4:6]), int(birthday[6:8])` then
`set_lunar` when `birthdayType.upper() == "LUNAR"`, else `set_solar`. -/
def build_cal (lib : CalLib) (req : Request) : Except String CalState :=
  if pyUpper req.birthdayType = "LUNAR" then
    set_lunar lib (digitsToNat (req.birthday.data.take 4))
      (digitsToNat ((req.birthday.data.drop 4).take 2))
      (digitsToNat ((req.birthday.data.drop 6).take 2))
      (pyLower req.isLeap = "true")
  else
    set_solar lib (digitsToNat (req.birthday.data.take 4))
      (digitsToNat ((req.birthday.data.drop 4).take 2))
      (digitsToNat ((req.birthday.data.drop 6).take 2))

/-- The hour-index resolution of `do_GET`: the discrete code table
first (`if time_code in TIME_MAP`), the free-form time only when no
code matched and `time` is non-empty (Python truthiness of a string). -/
def resolve_hour_idx (time_code time_hhmm : String) : Option Nat :=
  match List.lookup time_code TIME_MAP with
  | some i => some i
  | none => if time_hhmm = "" then none else hhmm_to_index time_hhmm

/-- `f"{ypair}년 {mpair}월 {dpair}일"`. -/
def base_result (yp mp dp : String) : String :=
  yp ++ "년 " ++ mp ++ "월 " ++ dp ++ "일"

/-- The result-string assembly of `do_GET`: append `" {hpair}시"` only
when the hour index resolved, the day stem was extracted, and
`compute_hour_pillar` returned a pillar. -/
def render_result (yp mp dp : String) (ds : Option Char) (hour_idx : Option Nat) : String :=
  match hour_idx, ds with
  | some hi, some stem =>
    match compute_hour_pillar stem hi with
    | some hp => base_result yp mp dp ++ " " ++ hp ++ "시"
    | none => base_result yp mp dp
  | _, _ => base_result yp mp dp

/-- `handler.do_GET` from the source, as a function of the library
model and the decoded query parameters. -/
def do_GET (lib : CalLib) (req : Request) : Response :=
  if matchBirthday req.birthday then
    match build_cal lib req with
    | .error e => _json 500 (.errorObj "exception" e)
    | .ok st =>
      match extract_ymd_pairs (get_ganji lib st) with
      | (some yp, some mp, some dp, ds) =>
        _json 200 (.resultObj (render_result yp mp dp ds (resolve_hour_idx req.timeCode req.time)))
      | _ => _json 500 (.errorObj "calc_failed" "failed to parse pillars")
  else _json 400 (.errorObj "bad_request" "birthday must be YYYYMMDD")

/-- A library model whose `getGanji` always yields a fixed well-formed
pillar text. -/
def sampleLib : CalLib :=
  ⟨true, true, true, true, some (fun _ => "계유년 임오월 병인일")⟩

/-- A library model with both solar setters missing. -/
def noSolarLib : CalLib :=
  ⟨false, false, true, true, some (fun _ => "계유년 임오월 병인일")⟩

/-- A library model without `getGanji` (an old version). -/
def noGanjiLib : CalLib := ⟨true, true, true, true, none⟩

/-- A library model whose pillar text contains no parseable pillar. -/
def gibberishLib : CalLib := ⟨true, true, true, true, some (fun _ => "no pillars here")⟩

/-- A plain valid request with no time information. -/
def baseReq : Request := ⟨"19900101", "", "", "SOLAR", "", "false"⟩

/-- A request whose `birthday` carries a trailing newline. -/
def reqNL : Request := ⟨"19900101\n", "", "", "SOLAR", "", "false"⟩

/-- A request with a malformed `birthday`. -/
def badReq : Request := ⟨"1990", "", "", "SOLAR", "", "false"⟩

/-- A request supplying both a discrete code and a free-form time. -/
def reqC4 : Request := ⟨"19900101", "00", "13:00", "SOLAR", "", "false"⟩

/-- A request with an unrecognised code and an unparseable time. -/
def req7 : Request := ⟨"19900101", "xx", "abc", "SOLAR", "", "false"⟩

theorem sanity_do_GET :
    do_GET sampleLib reqC4 = _json 200 (.resultObj "계유년 임오월 병인일 무자시") := by decide

theorem sanity_hhmm_a : hhmm_to_index "23:45" = some 0 := by decide

/-- A character that is not one of the ten stems is not a key of
`HOUR_START`. -/
lemma lookup_hour_start_none (c : Char) (hc : c ∉ STEMS) :
    List.lookup c HOUR_START = none := by
  simp only [STEMS, List.mem_cons, List.not_mem_nil, or_false, not_or] at hc
  obtain ⟨h1, h2, h3, h4, h5, h6, h7, h8, h9, h10⟩ := hc
  have b1 : (c == '갑') = false := beq_eq_false_iff_ne.mpr h1
  have b2 : (c == '을') = false := beq_eq_false_iff_ne.mpr h2
  have b3 : (c == '병') = false := beq_eq_false_iff_ne.mpr h3
  have b4 : (c == '정') = false := beq_eq_false_iff_ne.mpr h4
  have b5 : (c == '무') = false := beq_eq_false_iff_ne.mpr h5
  have b6 : (c == '기') = false := beq_eq_false_iff_ne.mpr h6
  have b7 : (c == '경') = false := beq_eq_false_iff_ne.mpr h7
  have b8 : (c == '신') = false := beq_eq_false_iff_ne.mpr h8
  have b9 : (c == '임') = false := beq_eq_false_iff_ne.mpr h9
  have b10 : (c == '계') = false := beq_eq_false_iff_ne.mpr h10
  simp [HOUR_START, List.lookup, b1, b2, b3, b4, b5, b6, b7, b8, b9, b10]

/-- `compute_hour_pillar` yields `None` on every non-stem symbol. -/
lemma compute_hour_pillar_none (c : Char) (hc : c ∉ STEMS) (b : Nat) :
    compute_hour_pillar c b = none := by
  simp [compute_hour_pillar, lookup_hour_start_none c hc]

/-- A string other than the thirteen codes is not a key of `TIME_MAP`. -/
lemma lookup_time_map_none (s : String)
    (hs : s ∉ (["00", "02", "04", "06", "08", "10", "12", "14", "16", "18", "20", "22", "24"] :
      List String)) :
    List.lookup s TIME_MAP = none := by
  simp only [List.mem_cons, List.not_mem_nil, or_false, not_or] at hs
  obtain ⟨h1, h2, h3, h4, h5, h6, h7, h8, h9, h10, h11, h12, h13⟩ := hs
  have b1 : (s == "00") = false := beq_eq_false_iff_ne.mpr h1
  have b2 : (s == "02") = false := beq_eq_false_iff_ne.mpr h2
  have b3 : (s == "04") = false := beq_eq_false_iff_ne.mpr h3
  have b4 : (s == "06") = false := beq_eq_false_iff_ne.mpr h4
  have b5 : (s == "08") = false := beq_eq_false_iff_ne.mpr h5
  have b6 : (s == "10") = false := beq_eq_false_iff_ne.mpr h6
  have b7 : (s == "12") = false := beq_eq_false_iff_ne.mpr h7
  have b8 : (s == "14") = false := beq_eq_false_iff_ne.mpr h8
  have b9 : (s == "16") = false := beq_eq_false_iff_ne.mpr h9
  have b10 : (s == "18") = false := beq_eq_false_iff_ne.mpr h10
  have b11 : (s == "20") = false := beq_eq_false_iff_ne.mpr h11
  have b12 : (s == "22") = false := beq_eq_false_iff_ne.mpr h12
  have b13 : (s == "24") = false := beq_eq_false_iff_ne.mpr h13
  simp [TIME_MAP, List.lookup, b1, b2, b3, b4, b5, b6, b7, b8, b9, b10, b11, b12, b13]

/-- C1: `compute_hour_pillar` agrees with the spec's algorithm: the
offset table is total over the ten stems with the pairs 갑/기, 을/경,
병/신, 정/임, 무/계 mapped to 0, 2, 4, 6, 8; for every stem and every
bucket `b ≤ 11` the result is the two-character string
`STEMS[(offset + b) % 10] ++ BRANCHES[b]` with the stem index in
`[0, 9]`; and every non-stem symbol yields `None`. -/
theorem hour_pillar_correct :
    (List.lookup '갑' HOUR_START = some 0 ∧ List.lookup '기' HOUR_START = some 0 ∧
     List.lookup '을' HOUR_START = some 2 ∧ List.lookup '경' HOUR_START = some 2 ∧
     List.lookup '병' HOUR_START = some 4 ∧ List.lookup '신' HOUR_START = some 4 ∧
     List.lookup '정' HOUR_START = some 6 ∧ List.lookup '임' HOUR_START = some 6 ∧
     List.lookup '무' HOUR_START = some 8 ∧ List.lookup '계' HOUR_START = some 8) ∧
    (∀ c ∈ STEMS, ∀ b : Fin 12,
      ((List.lookup c HOUR_START).getD 0 + b.val) % 10 ≤ 9 ∧
      compute_hour_pillar c b.val =
        some (String.mk [STEMS.getD (((List.lookup c HOUR_START).getD 0 + b.val) % 10) 'X',
                         BRANCHES.getD b.val 'X'])) ∧
    (∀ c, c ∉ STEMS → ∀ b : Nat, compute_hour_pillar c b = none) :=
  ⟨by decide, by decide, compute_hour_pillar_none⟩

/-- C1 witness: the theorem applied to the non-stem symbol `'x'` and to
the stem `'병'` with bucket 0. -/
theorem hour_pillar_correct_witness :
    compute_hour_pillar 'x' 5 = none ∧
    compute_hour_pillar '병' 0 = some "무자" :=
  ⟨hour_pillar_correct.2.2 'x' (by decide) 5,
   by
    have h := hour_pillar_correct.2.1 '병' (by decide) ⟨0, by decide⟩
    simpa using h.2⟩

/-- C3: the discrete code table is total and exact over the thirteen
recognised codes, and every other string is unrecognised. -/
theorem time_map_exact :
    (List.lookup "00" TIME_MAP = some 0 ∧ List.lookup "02" TIME_MAP = some 1 ∧
     List.lookup "04" TIME_MAP = some 2 ∧ List.lookup "06" TIME_MAP = some 3 ∧
     List.lookup "08" TIME_MAP = some 4 ∧ List.lookup "10" TIME_MAP = some 5 ∧
     List.lookup "12" TIME_MAP = some 6 ∧ List.lookup "14" TIME_MAP = some 7 ∧
     List.lookup "16" TIME_MAP = some 8 ∧ List.lookup "18" TIME_MAP = some 9 ∧
     List.lookup "20" TIME_MAP = some 10 ∧ List.lookup "22" TIME_MAP = some 11 ∧
     List.lookup "24" TIME_MAP = some 0) ∧
    (∀ s, s ∉ (["00", "02", "04", "06", "08", "10", "12", "14", "16", "18", "20", "22", "24"] :
        List String) →
      List.lookup s TIME_MAP = none) :=
  ⟨by decide, lookup_time_map_none⟩

/-- C3 witness: the theorem applied to the unrecognised code `"99"`. -/
theorem time_map_exact_witness : List.lookup "99" TIME_MAP = none :=
  time_map_exact.2 "99" (by decide)

theorem sanity_hhmm_b : hhmm_to_index "13:00" = some 6 := by decide

theorem sanity_extract :
    extract_ymd_pairs "계유년 임오월 병인일" = (some "계유", some "임오", some "병인", some '병') := by
  decide

/-- One unfolding step of the block scan. -/
lemma scan_blocks_cons (cur idx sH sM eH eM : Nat) (rest : List (Nat × Nat × Nat × Nat)) :
    scan_blocks cur idx ((sH, sM, eH, eM) :: rest) =
      if (sH * 60 + sM) % 1440 ≤ (eH * 60 + eM) % 1440 then
        if (sH * 60 + sM) % 1440 ≤ cur ∧ cur ≤ (eH * 60 + eM) % 1440 then some idx
        else scan_blocks cur (idx + 1) rest
      else
        if (sH * 60 + sM) % 1440 ≤ cur ∨ cur ≤ (eH * 60 + eM) % 1440 then some idx
        else scan_blocks cur (idx + 1) rest := rfl

/-- Minute counts of at least 23:30 hit the wrapping first block. -/
lemma scan_blocks_big (cur : Nat) (h : 1410 ≤ cur) : scan_blocks cur 0 blocks = some 0 := by
  simp only [blocks]
  rw [scan_blocks_cons]
  rw [if_neg (by norm_num : ¬((23 * 60 + 30) % 1440 ≤ (1 * 60 + 29) % 1440))]
  exact if_pos (Or.inl h)

/-- The block scan is total: for every minute count it returns the
wrapping bucket 0 on `[23:30, ∞)` and `[0, 01:29]`, and otherwise
bucket `(cur + 30) / 120`, the unique window containing `cur`. -/
lemma scan_blocks_eval (cur : Nat) :
    scan_blocks cur 0 blocks =
      some (if 1410 ≤ cur ∨ cur ≤ 89 then 0 else (cur + 30) / 120) := by
  simp only [blocks]
  rw [scan_blocks_cons]
  rw [if_neg (by norm_num : ¬((23 * 60 + 30) % 1440 ≤ (1 * 60 + 29) % 1440))]
  by_cases h0 : (23 * 60 + 30) % 1440 ≤ cur ∨ cur ≤ (1 * 60 + 29) % 1440
  · rw [if_pos h0]
    have hw : 1410 ≤ cur ∨ cur ≤ 89 := by omega
    rw [if_pos hw]
  · rw [if_neg h0]
    rw [scan_blocks_cons]
    rw [if_pos (by norm_num : (1 * 60 + 30) % 1440 ≤ (3 * 60 + 29) % 1440)]
    by_cases h1 : (1 * 60 + 30) % 1440 ≤ cur ∧ cur ≤ (3 * 60 + 29) % 1440
    · rw [if_pos h1]
      have hw : ¬(1410 ≤ cur ∨ cur ≤ 89) := by omega
      rw [if_neg hw]
      have he : (cur + 30) / 120 = 1 := by omega
      rw [he]
    · rw [if_neg h1]
      rw [scan_blocks_cons]
      rw [if_pos (by norm_num : (3 * 60 + 30) % 1440 ≤ (5 * 60 + 29) % 1440)]
      by_cases h2 : (3 * 60 + 30) % 1440 ≤ cur ∧ cur ≤ (5 * 60 + 29) % 1440
      · rw [if_pos h2]
        have hw : ¬(1410 ≤ cur ∨ cur ≤ 89) := by omega
        rw [if_neg hw]
        have he : (cur + 30) / 120 = 2 := by omega
        rw [he]
      · rw [if_neg h2]
        rw [scan_blocks_cons]
        rw [if_pos (by norm_num : (5 * 60 + 30) % 1440 ≤ (7 * 60 + 29) % 1440)]
        by_cases h3 : (5 * 60 + 30) % 1440 ≤ cur ∧ cur ≤ (7 * 60 + 29) % 1440
        · rw [if_pos h3]
          have hw : ¬(1410 ≤ cur ∨ cur ≤ 89) := by omega
          rw [if_neg hw]
          have he : (cur + 30) / 120 = 3 := by omega
          rw [he]
        · rw [if_neg h3]
          rw [scan_blocks_cons]
          rw [if_pos (by norm_num : (7 * 60 + 30) % 1440 ≤ (9 * 60 + 29) % 1440)]
          by_cases h4 : (7 * 60 + 30) % 1440 ≤ cur ∧ cur ≤ (9 * 60 + 29) % 1440
          · rw [if_pos h4]
            have hw : ¬(1410 ≤ cur ∨ cur ≤ 89) := by omega
            rw [if_neg hw]
            have he : (cur + 30) / 120 = 4 := by omega
            rw [he]
          · rw [if_neg h4]
            rw [scan_blocks_cons]
            rw [if_pos (by norm_num : (9 * 60 + 30) % 1440 ≤ (11 * 60 + 29) % 1440)]
            by_cases h5 : (9 * 60 + 30) % 1440 ≤ cur ∧ cur ≤ (11 * 60 + 29) % 1440
            · rw [if_pos h5]
              have hw : ¬(1410 ≤ cur ∨ cur ≤ 89) := by omega
              rw [if_neg hw]
              have he : (cur + 30) / 120 = 5 := by omega
              rw [he]
            · rw [if_neg h5]
              rw [scan_blocks_cons]
              rw [if_pos (by norm_num : (11 * 60 + 30) % 1440 ≤ (13 * 60 + 29) % 1440)]
              by_cases h6 : (11 * 60 + 30) % 1440 ≤ cur ∧ cur ≤ (13 * 60 + 29) % 1440
              · rw [if_pos h6]
                have hw : ¬(1410 ≤ cur ∨ cur ≤ 89) := by omega
                rw [if_neg hw]
                have he : (cur + 30) / 120 = 6 := by omega
                rw [he]
              · rw [if_neg h6]
                rw [scan_blocks_cons]
                rw [if_pos (by norm_num : (13 * 60 + 30) % 1440 ≤ (15 * 60 + 29) % 1440)]
                by_cases h7 : (13 * 60 + 30) % 1440 ≤ cur ∧ cur ≤ (15 * 60 + 29) % 1440
                · rw [if_pos h7]
                  have hw : ¬(1410 ≤ cur ∨ cur ≤ 89) := by omega
                  rw [if_neg hw]
                  have he : (cur + 30) / 120 = 7 := by omega
                  rw [he]
                · rw [if_neg h7]
                  rw [scan_blocks_cons]
                  rw [if_pos (by norm_num : (15 * 60 + 30) % 1440 ≤ (17 * 60 + 29) % 1440)]
                  by_cases h8 : (15 * 60 + 30) % 1440 ≤ cur ∧ cur ≤ (17 * 60 + 29) % 1440
                  · rw [if_pos h8]
                    have hw : ¬(1410 ≤ cur ∨ cur ≤ 89) := by omega
                    rw [if_neg hw]
                    have he : (cur + 30) / 120 = 8 := by omega
                    rw [he]
                  · rw [if_neg h8]
                    rw [scan_blocks_cons]
                    rw [if_pos (by norm_num : (17 * 60 + 30) % 1440 ≤ (19 * 60 + 29) % 1440)]
                    by_cases h9 : (17 * 60 + 30) % 1440 ≤ cur ∧ cur ≤ (19 * 60 + 29) % 1440
                    · rw [if_pos h9]
                      have hw : ¬(1410 ≤ cur ∨ cur ≤ 89) := by omega
                      rw [if_neg hw]
                      have he : (cur + 30) / 120 = 9 := by omega
                      rw [he]
                    · rw [if_neg h9]
                      rw [scan_blocks_cons]
                      rw [if_pos (by norm_num : (19 * 60 + 30) % 1440 ≤ (21 * 60 + 29) % 1440)]
                      by_cases h10 : (19 * 60 + 30) % 1440 ≤ cur ∧ cur ≤ (21 * 60 + 29) % 1440
                      · rw [if_pos h10]
                        have hw : ¬(1410 ≤ cur ∨ cur ≤ 89) := by omega
                        rw [if_neg hw]
                        have he : (cur + 30) / 120 = 10 := by omega
                        rw [he]
                      · rw [if_neg h10]
                        rw [scan_blocks_cons]
                        rw [if_pos (by norm_num : (21 * 60 + 30) % 1440 ≤ (23 * 60 + 29) % 1440)]
                        by_cases h11 : (21 * 60 + 30) % 1440 ≤ cur ∧ cur ≤ (23 * 60 + 29) % 1440
                        · rw [if_pos h11]
                          have hw : ¬(1410 ≤ cur ∨ cur ≤ 89) := by omega
                          rw [if_neg hw]
                          have he : (cur + 30) / 120 = 11 := by omega
                          rw [he]
                        · rw [if_neg h11]
                          exfalso
                          simp only [scan_blocks] at *
                          omega

/-- C2: on every string that the time regex parses as a valid
wall-clock time `hh:mm`, `hhmm_to_index` returns exactly the bucket
whose window contains the minute-of-day: bucket 0 on the
midnight-wrapping window 23:30–23:59 and 00:00–01:29, and bucket `i`
on each non-wrapping window `[(2i-1):30, (2i+1):29]` for `i` in 1..11,
both boundary minutes inclusive. -/
theorem hhmm_window_correct (s : String) (hh mm : Nat)
    (hp : parseHHMM s = some (hh, mm)) (hhh : hh ≤ 23) (hmm : mm ≤ 59) :
    (1410 ≤ hh * 60 + mm ∨ hh * 60 + mm ≤ 89 → hhmm_to_index s = some 0) ∧
    (∀ i, 1 ≤ i → i ≤ 11 → (2 * i - 1) * 60 + 30 ≤ hh * 60 + mm →
      hh * 60 + mm ≤ (2 * i + 1) * 60 + 29 → hhmm_to_index s = some i) := by
  simp only [hhmm_to_index, hp, scan_blocks_eval]
  constructor
  · intro hw
    by_cases hf : hh = 23 ∧ 30 ≤ mm
    · rw [if_pos hf]
    · rw [if_neg hf, if_pos hw]
  · intro i h1 h11 hlo hhi
    have hf : ¬(hh = 23 ∧ 30 ≤ mm) := by omega
    have hw : ¬(1410 ≤ hh * 60 + mm ∨ hh * 60 + mm ≤ 89) := by omega
    rw [if_neg hf, if_neg hw]
    have he : (hh * 60 + mm + 30) / 120 = i := by omega
    rw [he]

/-- C2 witness: 13:00 lies in window 6 (11:30–13:29), and the theorem
instantiated there yields bucket 6. -/
theorem hhmm_window_correct_witness : hhmm_to_index "13:00" = some 6 :=
  (hhmm_window_correct "13:00" 13 0 (by decide) (by decide) (by decide)).2 6
    (by decide) (by decide) (by decide) (by decide)

/-- C10: every string the regex accepts — valid wall-clock time or not
— yields a bucket in `[0, 11]`; the block scan itself already succeeds
on the parsed minute count, so the residual 00:00–01:29 fallback and
the final `None` return are unreachable on regex-matching input. -/
theorem hhmm_total_on_pattern (s : String) (hh mm : Nat)
    (hp : parseHHMM s = some (hh, mm)) :
    ∃ i, i ≤ 11 ∧ hhmm_to_index s = some i ∧
      scan_blocks (hh * 60 + mm) 0 blocks = some i := by
  refine ⟨if 1410 ≤ hh * 60 + mm ∨ hh * 60 + mm ≤ 89 then 0
            else (hh * 60 + mm + 30) / 120, ?_, ?_, scan_blocks_eval _⟩
  · split_ifs <;> omega
  · simp only [hhmm_to_index, hp, scan_blocks_eval]
    by_cases hf : hh = 23 ∧ 30 ≤ mm
    · rw [if_pos hf, if_pos (by omega : 1410 ≤ hh * 60 + mm ∨ hh * 60 + mm ≤ 89)]
    · rw [if_neg hf]

/-- C10 witness: the theorem applied to the single-digit-hour string
"5:07", which the pattern accepts and which lands in bucket 2. -/
theorem hhmm_total_on_pattern_witness :
    ∃ i, i ≤ 11 ∧ hhmm_to_index "5:07" = some i ∧
      scan_blocks (5 * 60 + 7) 0 blocks = some i :=
  hhmm_total_on_pattern "5:07" 5 7 (by decide)

/-- C7 counterexample: "99:99" is not a valid time of day (99 > 23,
99 > 59), yet `hhmm_to_index` does not produce `None` on it — the
regex accepts it and the wrapping window test `cur >= 1410` catches
its minute count, returning bucket 0. -/
theorem invalid_time_not_none :
    parseHHMM "99:99" = some (99, 99) ∧ ¬(99 ≤ 23 ∧ 99 ≤ 59) ∧
    hhmm_to_index "99:99" = some 0 := by decide

/-- Reduction of `do_GET` on a malformed birthday. -/
lemma do_GET_bad (lib : CalLib) (req : Request)
    (hb : matchBirthday req.birthday = false) :
    do_GET lib req = _json 400 (.errorObj "bad_request" "birthday must be YYYYMMDD") := by
  simp [do_GET, hb]

/-- Reduction of `do_GET` when the calendar construction raises. -/
lemma do_GET_exception (lib : CalLib) (req : Request) (e : String)
    (hb : matchBirthday req.birthday = true)
    (hc : build_cal lib req = .error e) :
    do_GET lib req = _json 500 (.errorObj "exception" e) := by
  simp [do_GET, hb, hc]

/-- Reduction of `do_GET` when all three pillar pairs are extracted. -/
lemma do_GET_ok (lib : CalLib) (req : Request) (st : CalState)
    (yp mp dp : String) (ds : Option Char)
    (hb : matchBirthday req.birthday = true)
    (hc : build_cal lib req = .ok st)
    (he : extract_ymd_pairs (get_ganji lib st) = (some yp, some mp, some dp, ds)) :
    do_GET lib req =
      _json 200 (.resultObj (render_result yp mp dp ds
        (resolve_hour_idx req.timeCode req.time))) := by
  simp [do_GET, hb, hc, he]

/-- Reduction of `do_GET` when some pillar pair is missing. -/
lemma do_GET_calc_failed (lib : CalLib) (req : Request) (st : CalState)
    (hb : matchBirthday req.birthday = true)
    (hc : build_cal lib req = .ok st)
    (he : (extract_ymd_pairs (get_ganji lib st)).1 = none ∨
          (extract_ymd_pairs (get_ganji lib st)).2.1 = none ∨
          (extract_ymd_pairs (get_ganji lib st)).2.2.1 = none) :
    do_GET lib req = _json 500 (.errorObj "calc_failed" "failed to parse pillars") := by
  rcases hE : extract_ymd_pairs (get_ganji lib st) with ⟨o1, o2, o3, o4⟩
  rw [hE] at he
  simp only [do_GET, hb, hc, hE]
  rcases o1 with - | yp <;> rcases o2 with - | mp <;> rcases o3 with - | dp <;> simp_all

/-- One unresolved hour index suppresses the hour pillar. -/
lemma render_result_no_hour (yp mp dp : String) (ds : Option Char) :
    render_result yp mp dp ds none = base_result yp mp dp := by
  cases ds <;> rfl

/-- With an unrecognised code, the resolver falls back to the
free-form time. -/
lemma resolve_hour_idx_no_code (tc t : String)
    (h : List.lookup tc TIME_MAP = none) (ht : hhmm_to_index t = none) :
    resolve_hour_idx tc t = none := by
  simp only [resolve_hour_idx, h]
  split_ifs <;> simp [ht]

/-- C4: when `timeCode` is a recognised discrete code, the bucket used
is the one from the code table and the free-form `time` parameter has
no effect on the response (in particular code "00", mapping to bucket
0, still takes precedence, since the source tests membership and
`is None`, not truthiness). -/
theorem time_code_precedence (lib : CalLib) (req : Request) (i : Nat) (t' : String)
    (h : List.lookup req.timeCode TIME_MAP = some i) :
    resolve_hour_idx req.timeCode req.time = some i ∧
    do_GET lib req = do_GET lib { req with time := t' } := by
  obtain ⟨b, tc, t, bt, g, il⟩ := req
  dsimp only at h ⊢
  have hr : ∀ t0, resolve_hour_idx tc t0 = some i := fun t0 => by
    simp [resolve_hour_idx, h]
  exact ⟨hr t, by simp only [do_GET, build_cal, hr]⟩

/-- C4 witness: code "00" beats the conflicting free-form time
"13:00"; replacing the time by "05:05" leaves the response unchanged. -/
theorem time_code_precedence_witness :
    resolve_hour_idx reqC4.timeCode reqC4.time = some 0 ∧
    do_GET sampleLib reqC4 = do_GET sampleLib { reqC4 with time := "05:05" } :=
  time_code_precedence sampleLib reqC4 0 "05:05" (by decide)

/-- C9: the `gender` parameter never influences the response: any two
requests identical up to `gender` (an absent parameter is the default
`""`) get the same status, headers and body. -/
theorem gender_no_effect (lib : CalLib) (req : Request) (g' : String) :
    do_GET lib { req with gender := g' } = do_GET lib req := by
  obtain ⟨b, tc, t, bt, g, il⟩ := req
  rfl

/-- C6: on a valid birthday with the calendar state built, a missing
year, month or day pair in the library's pillar text yields exactly the
500 calc_failed response; when all three pairs extract, the handler
answers 200 instead, and a missing day stem alone merely suppresses
the hour pillar (`render_result` with no stem is the bare result). -/
theorem pillar_parse_gate (lib : CalLib) (req : Request) (st : CalState)
    (hb : matchBirthday req.birthday = true)
    (hc : build_cal lib req = .ok st) :
    ((extract_ymd_pairs (get_ganji lib st)).1 = none ∨
     (extract_ymd_pairs (get_ganji lib st)).2.1 = none ∨
     (extract_ymd_pairs (get_ganji lib st)).2.2.1 = none →
      do_GET lib req = _json 500 (.errorObj "calc_failed" "failed to parse pillars")) ∧
    (∀ yp mp dp ds, extract_ymd_pairs (get_ganji lib st) = (some yp, some mp, some dp, ds) →
      do_GET lib req = _json 200 (.resultObj (render_result yp mp dp ds
        (resolve_hour_idx req.timeCode req.time)))) ∧
    (∀ yp mp dp hi, render_result yp mp dp none hi = base_result yp mp dp) :=
  ⟨do_GET_calc_failed lib req st hb hc,
   fun yp mp dp ds he => do_GET_ok lib req st yp mp dp ds hb hc he,
   fun _ _ _ hi => by cases hi <;> rfl⟩

/-- C6 witness: a library answering unparseable pillar text makes the
request fail with the calc_failed response. -/
theorem pillar_parse_gate_witness :
    do_GET gibberishLib baseReq = _json 500 (.errorObj "calc_failed" "failed to parse pillars") :=
  (pillar_parse_gate gibberishLib baseReq (.solar 1990 1 1) (by decide) rfl).1 (Or.inl rfl)

/-- C7 (amended): a time string the regex rejects resolves to `None`,
and the request still succeeds with 200, the result text being the
bare year/month/day string without the hour suffix.  (As stated the
claim fails: regex-matching strings that are invalid times, such as
"99:99", do get a bucket — see the counterexample.) -/
theorem unparseable_time_omits_hour (lib : CalLib) (req : Request) (st : CalState)
    (yp mp dp : String) (ds : Option Char)
    (hb : matchBirthday req.birthday = true)
    (hc : build_cal lib req = .ok st)
    (he : extract_ymd_pairs (get_ganji lib st) = (some yp, some mp, some dp, ds))
    (htc : List.lookup req.timeCode TIME_MAP = none)
    (ht : parseHHMM req.time = none) :
    hhmm_to_index req.time = none ∧
    (∀ s, parseHHMM s = none → hhmm_to_index s = none) ∧
    do_GET lib req = _json 200 (.resultObj (base_result yp mp dp)) := by
  have hnone : ∀ s, parseHHMM s = none → hhmm_to_index s = none := fun s h => by
    simp [hhmm_to_index, h]
  have hti := hnone req.time ht
  refine ⟨hti, hnone, ?_⟩
  rw [do_GET_ok lib req st yp mp dp ds hb hc he,
      resolve_hour_idx_no_code req.timeCode req.time htc hti,
      render_result_no_hour]

/-- C7 witness: unrecognised code "xx" and unparseable time "abc"
still give a 200 response without an hour pillar. -/
theorem unparseable_time_witness :
    hhmm_to_index "abc" = none ∧
    do_GET sampleLib req7 = _json 200 (.resultObj (base_result "계유" "임오" "병인")) :=
  ⟨(unparseable_time_omits_hour sampleLib req7 (.solar 1990 1 1) "계유" "임오" "병인"
      (some '병') (by decide) rfl (by decide) (by decide) (by decide)).1,
   (unparseable_time_omits_hour sampleLib req7 (.solar 1990 1 1) "계유" "임오" "병인"
      (some '병') (by decide) rfl (by decide) (by decide) (by decide)).2.2⟩

/-- C5 (amended): whenever the birthday is neither exactly eight
digits nor eight digits followed by one trailing newline (the extra
form Python's `$` anchor admits), the handler answers 400 with the
fixed bad_request body, for every library model — so no calendar
computation can influence the response. -/
theorem birthday_validation (lib : CalLib) (req : Request)
    (h8 : ¬(req.birthday.data.length = 8 ∧ (req.birthday.data.take 8).all Char.isDigit = true))
    (h9 : ¬(req.birthday.data.length = 9 ∧ req.birthday.data.getLast? = some '\n' ∧
            (req.birthday.data.take 8).all Char.isDigit = true)) :
    do_GET lib req = _json 400 (.errorObj "bad_request" "birthday must be YYYYMMDD") := by
  have hm : matchBirthday req.birthday = false := by
    cases hm : matchBirthday req.birthday with
    | false => rfl
    | true =>
      simp only [matchBirthday, Bool.and_eq_true, Bool.or_eq_true, decide_eq_true_eq] at hm
      rcases hm with ⟨h1 | ⟨h2a, h2b⟩, hall⟩
      · exact absurd ⟨h1, hall⟩ h8
      · exact absurd ⟨h2a, h2b, hall⟩ h9
  exact do_GET_bad lib req hm

/-- C5 witness: the four-character birthday "1990" is rejected with
the exact 400 body. -/
theorem birthday_validation_witness :
    do_GET sampleLib badReq = _json 400 (.errorObj "bad_request" "birthday must be YYYYMMDD") :=
  birthday_validation sampleLib badReq (by decide) (by decide)

/-- C5 counterexample: the nine-character birthday "19900101\n" is not
exactly eight decimal digits, yet the request is not rejected — the
Python `$` anchor matches before the trailing newline, and the handler
answers 200. -/
theorem birthday_newline_cex :
    reqNL.birthday.data.length ≠ 8 ∧
    (do_GET sampleLib reqNL).status = 200 ∧
    do_GET sampleLib reqNL ≠ _json 400 (.errorObj "bad_request" "birthday must be YYYYMMDD") := by
  decide

/-- An exception body and the calc_failed body always differ: their
twelfth characters are the first letters of the two error tags. -/
lemma dumps_exception_ne (m : String) :
    dumps (.errorObj "exception" m) ≠
      dumps (.errorObj "calc_failed" "failed to parse pillars") := by
  intro h
  have h2 : (dumps (.errorObj "exception" m)).data[11]? =
      (dumps (.errorObj "calc_failed" "failed to parse pillars")).data[11]? := by rw [h]
  have hL : (dumps (.errorObj "exception" m)).data[11]? = some 'e' := rfl
  have hR : (dumps (.errorObj "calc_failed" "failed to parse pillars")).data[11]? =
      some 'c' := rfl
  rw [hL, hR] at h2
  exact absurd h2 (by decide)

/-- C8 (amended): with a valid birthday, a missing pair of solar
setters (resp. lunar setters, on the lunar path) surfaces as the 500
exception response carrying the `AttributeError` text; but a missing
`getGanji` does not — the wrapper falls back to the empty string,
whose extraction fails, so the request ends as 500 calc_failed. -/
theorem missing_method_surface (lib : CalLib) (req : Request)
    (hb : matchBirthday req.birthday = true) :
    (pyUpper req.birthdayType ≠ "LUNAR" → lib.hasSetSolar = false →
      lib.hasSetSolarDate = false →
      do_GET lib req =
        _json 500 (.errorObj "exception" "KoreanLunarCalendar: setSolar/setSolarDate not found")) ∧
    (pyUpper req.birthdayType = "LUNAR" → lib.hasSetLunar = false →
      lib.hasSetLunarDate = false →
      do_GET lib req =
        _json 500 (.errorObj "exception" "KoreanLunarCalendar: setLunar/setLunarDate not found")) ∧
    (∀ st, lib.getGanji = none → build_cal lib req = .ok st →
      do_GET lib req = _json 500 (.errorObj "calc_failed" "failed to parse pillars")) := by
  refine ⟨?_, ?_, ?_⟩
  · intro hbt h1 h2
    exact do_GET_exception lib req _ hb (by simp [build_cal, hbt, set_solar, h1, h2])
  · intro hbt h1 h2
    exact do_GET_exception lib req _ hb (by simp [build_cal, hbt, set_lunar, h1, h2])
  · intro st hg hc
    apply do_GET_calc_failed lib req st hb hc
    have hgg : get_ganji lib st = "" := by simp [get_ganji, hg]
    rw [hgg]
    exact Or.inl rfl

/-- C8 witness: both solar setters missing on the solar path produce
the exception response with the AttributeError text. -/
theorem missing_method_witness :
    do_GET noSolarLib baseReq =
      _json 500 (.errorObj "exception" "KoreanLunarCalendar: setSolar/setSolarDate not found") :=
  (missing_method_surface noSolarLib baseReq (by decide)).1 (by decide) rfl rfl

/-- C8 counterexample: with `getGanji` missing the handler does not
answer with an exception body at all — it answers with the calc_failed
body, which no exception-shaped body equals. -/
theorem getganji_missing_not_exception :
    do_GET noGanjiLib baseReq = _json 500 (.errorObj "calc_failed" "failed to parse pillars") ∧
    ¬∃ m : String, do_GET noGanjiLib baseReq = _json 500 (.errorObj "exception" m) := by
  have h1 : do_GET noGanjiLib baseReq =
      _json 500 (.errorObj "calc_failed" "failed to parse pillars") := by decide
  refine ⟨h1, ?_⟩
  rintro ⟨m, hm⟩
  rw [h1] at hm
  have hb := congrArg Response.body hm
  exact dumps_exception_ne m hb.symm
